import Mathlib

/-!
Verification of `bulk_folder_updater.py`.

The development shallowly embeds the pure logic of the script:

* string helpers mirroring the Python operations used by the script
  (`str.strip`, `in` substring test, `str.rsplit(".", 1)[0]`, `str.lower`,
  `str.startswith`);
* `Cell` models one spreadsheet scalar as read by pandas: `Cell.absent` is
  a missing cell (pandas `NaN`, whose `str()` is the text `nan`),
  `Cell.str` a textual cell.  Datasets with non-textual scalars (numbers,
  datetime objects) are outside the scope of the claims and are not
  modelled; in particular the `isinstance(date_value, datetime)` fast path
  of `format_date` is omitted because no `Cell` constructor can reach it;
* `format_date` follows the Python function of the same name, with the
  five `strptime` formats implemented after CPython's `_strptime` regexes
  (`%d` and `%m` accept one or two digits, `%y` exactly two, `%Y` exactly
  four, `%b` a case-insensitive three-letter month abbreviation, the whole
  string must be consumed, and the resulting date must be a valid calendar
  date; the two-digit year maps 00-68 to 20xx and 69-99 to 19xx).  The
  regex alternations for `%d`/`%m` are ordered exactly as in CPython; in
  the five formats of the script every numeric field is followed by a
  non-digit literal or by the end of the string, so the local
  first-alternative choice made below coincides with full regex matching
  with backtracking;
* `scan1`, `scan23` and `matchRow` embed the matching strategies of
  `build_attributes_from_excel`; `payloadEntry`/`buildPayload` embed its
  payload loop; `syncFile`/`runSync` embed the per-file loop of `main`
  (the external version lookup and update calls are oracles passed in as
  functions);
* `RNode` and `walkList` embed `get_all_files_recursive`; the `ok` flag of
  a folder node records whether `list_folder_contents` succeeds for it
  (on any failure the Python helper returns `[]`).
-/

/-- Python whitespace characters removed by `str.strip()` (ASCII part). -/
def pyWS (c : Char) : Bool :=
  c.toNat = 32 || c.toNat = 9 || c.toNat = 10 || c.toNat = 13 || c.toNat = 11 || c.toNat = 12

/-- Python `str.strip()`. -/
def pyStrip (s : String) : String :=
  ⟨((s.data.dropWhile pyWS).reverse.dropWhile pyWS).reverse⟩

/-- Does the first list start with the second list? -/
def leadsWith : List Char → List Char → Bool
  | _, [] => true
  | [], _ :: _ => false
  | c :: cs, d :: ds => c == d && leadsWith cs ds

/-- Does the first list contain the second list as a contiguous run? -/
def hasSub : List Char → List Char → Bool
  | [], needle => needle.isEmpty
  | c :: cs, needle => leadsWith (c :: cs) needle || hasSub cs needle

/-- Python `needle in hay` for strings. -/
def strContains (needle hay : String) : Bool :=
  hasSub hay.data needle.data

/-- Python `s.startswith(p)`. -/
def strStarts (s p : String) : Bool :=
  leadsWith s.data p.data

/-- ASCII lower-casing, as used for `col.lower()` on column names. -/
def lowerAsc (s : String) : String :=
  ⟨s.data.map (fun c => if 65 ≤ c.toNat && c.toNat ≤ 90 then Char.ofNat (c.toNat + 32) else c)⟩

/-- Python `s.rsplit(".", 1)[0] if "." in s else s`: drop the last
extension segment when a dot is present. -/
def baseOf (s : String) : String :=
  if strContains "." s then ⟨((s.data.reverse.dropWhile (fun c => !(c == '.'))).drop 1).reverse⟩
  else s

/-- One spreadsheet scalar as produced by `pd.read_excel`: a missing cell
(pandas `NaN`) or a textual cell. -/
inductive Cell where
  | absent : Cell
  | str : String → Cell
deriving DecidableEq

/-- Python `str(value)` on a cell: `str(nan)` is the literal text `nan`. -/
def pyStr : Cell → String
  | Cell.absent => "nan"
  | Cell.str s => s

/-- A spreadsheet row: the scalar stored under each column name. -/
def Row : Type := String → Cell

/-- A dataset as read by `pd.read_excel`: column names in order, and rows
in original order. -/
structure DataFrame where
  columns : List String
  rows : List Row

/-- The static `ATTRIBUTE_MAPPING` dictionary of the script. -/
def ATTRIBUTE_MAPPING (col : String) : Option Nat :=
  if col = "Package ID" then some 7374741
  else if col = "Package Name" then some 7374744
  else if col = "Contractor" then some 7374759
  else if col = "Location" then some 7374769
  else if col = "Planned Start" then some 7374777
  else if col = "Planned End" then some 7374783
  else if col = "Actual Start" then some 7374787
  else if col = "Actual End" then some 7374795
  else if col = "% Completion" then some 7374805
  else none

/-! ### Date parsing (`format_date`) -/

/-- Is the character an ASCII digit? -/
def isDig (c : Char) : Bool := 48 ≤ c.toNat && c.toNat ≤ 57

/-- Is the character an ASCII digit 1-9? -/
def isDig19 (c : Char) : Bool := 49 ≤ c.toNat && c.toNat ≤ 57

/-- Numeric value of an ASCII digit. -/
def dval (c : Char) : Nat := c.toNat - 48

/-- CPython `%d` field: regex alternation `3[0-1] | [1-2]\d | 0[1-9] |
[1-9] | space[1-9]`, alternatives tried in this order. -/
def parseDayTok : List Char → Option (Nat × List Char)
  | [] => none
  | [c] => if isDig19 c then some (dval c, []) else none
  | c1 :: c2 :: rest =>
    if c1 = '3' && (c2 = '0' || c2 = '1') then some (30 + dval c2, rest)
    else if (c1 = '1' || c1 = '2') && isDig c2 then some (10 * dval c1 + dval c2, rest)
    else if c1 = '0' && isDig19 c2 then some (dval c2, rest)
    else if isDig19 c1 then some (dval c1, c2 :: rest)
    else if c1 = ' ' && isDig19 c2 then some (dval c2, rest)
    else none

/-- CPython `%m` field: regex alternation `1[0-2] | 0[1-9] | [1-9]`. -/
def parseMonthTok : List Char → Option (Nat × List Char)
  | [] => none
  | [c] => if isDig19 c then some (dval c, []) else none
  | c1 :: c2 :: rest =>
    if c1 = '1' && (c2 = '0' || c2 = '1' || c2 = '2') then some (10 + dval c2, rest)
    else if c1 = '0' && isDig19 c2 then some (dval c2, rest)
    else if isDig19 c1 then some (dval c1, c2 :: rest)
    else none

/-- Lower-case an ASCII letter. -/
def lowC (c : Char) : Char :=
  if 65 ≤ c.toNat && c.toNat ≤ 90 then Char.ofNat (c.toNat + 32) else c

/-- Month number of a three-letter abbreviation, case-insensitive
(`%b` with the C locale). -/
def monthAbbrNum (a b c : Char) : Option Nat :=
  let l : List Char := [lowC a, lowC b, lowC c]
  if l = ['j', 'a', 'n'] then some 1
  else if l = ['f', 'e', 'b'] then some 2
  else if l = ['m', 'a', 'r'] then some 3
  else if l = ['a', 'p', 'r'] then some 4
  else if l = ['m', 'a', 'y'] then some 5
  else if l = ['j', 'u', 'n'] then some 6
  else if l = ['j', 'u', 'l'] then some 7
  else if l = ['a', 'u', 'g'] then some 8
  else if l = ['s', 'e', 'p'] then some 9
  else if l = ['o', 'c', 't'] then some 10
  else if l = ['n', 'o', 'v'] then some 11
  else if l = ['d', 'e', 'c'] then some 12
  else none

/-- CPython `%b` field. -/
def parseMonthAbbr : List Char → Option (Nat × List Char)
  | a :: b :: c :: rest => (monthAbbrNum a b c).map (fun m => (m, rest))
  | _ => none

/-- CPython `%y` field: exactly two digits; 00-68 map to 2000-2068 and
69-99 to 1969-1999. -/
def parseY2 : List Char → Option (Nat × List Char)
  | a :: b :: rest =>
    if isDig a && isDig b then
      let yy := 10 * dval a + dval b
      some (if yy ≤ 68 then 2000 + yy else 1900 + yy, rest)
    else none
  | _ => none

/-- CPython `%Y` field: exactly four digits. -/
def parseY4 : List Char → Option (Nat × List Char)
  | a :: b :: c :: d :: rest =>
    if isDig a && isDig b && isDig c && isDig d then
      some (1000 * dval a + 100 * dval b + 10 * dval c + dval d, rest)
    else none
  | _ => none

/-- Consume one literal character. -/
def expectChar (c : Char) : List Char → Option (List Char)
  | d :: rest => if d == c then some rest else none
  | [] => none

/-- `strptime` with format `%d-%b-%y` (date part, full match). -/
def pDBY2 (cs : List Char) : Option (Nat × Nat × Nat) := do
  let (d, cs) ← parseDayTok cs
  let cs ← expectChar '-' cs
  let (m, cs) ← parseMonthAbbr cs
  let cs ← expectChar '-' cs
  let (y, cs) ← parseY2 cs
  if cs.isEmpty then pure (y, m, d) else none

/-- `strptime` with format `%d-%b-%Y`. -/
def pDBY4 (cs : List Char) : Option (Nat × Nat × Nat) := do
  let (d, cs) ← parseDayTok cs
  let cs ← expectChar '-' cs
  let (m, cs) ← parseMonthAbbr cs
  let cs ← expectChar '-' cs
  let (y, cs) ← parseY4 cs
  if cs.isEmpty then pure (y, m, d) else none

/-- `strptime` with format `%Y-%m-%d`. -/
def pISO (cs : List Char) : Option (Nat × Nat × Nat) := do
  let (y, cs) ← parseY4 cs
  let cs ← expectChar '-' cs
  let (m, cs) ← parseMonthTok cs
  let cs ← expectChar '-' cs
  let (d, cs) ← parseDayTok cs
  if cs.isEmpty then pure (y, m, d) else none

/-- `strptime` with format `%m/%d/%Y`. -/
def pMDY (cs : List Char) : Option (Nat × Nat × Nat) := do
  let (m, cs) ← parseMonthTok cs
  let cs ← expectChar '/' cs
  let (d, cs) ← parseDayTok cs
  let cs ← expectChar '/' cs
  let (y, cs) ← parseY4 cs
  if cs.isEmpty then pure (y, m, d) else none

/-- `strptime` with format `%d/%m/%Y`. -/
def pDMY (cs : List Char) : Option (Nat × Nat × Nat) := do
  let (d, cs) ← parseDayTok cs
  let cs ← expectChar '/' cs
  let (m, cs) ← parseMonthTok cs
  let cs ← expectChar '/' cs
  let (y, cs) ← parseY4 cs
  if cs.isEmpty then pure (y, m, d) else none

/-- Gregorian leap year. -/
def isLeap (y : Nat) : Bool := y % 4 = 0 && (y % 100 ≠ 0 || y % 400 = 0)

/-- Days in a month. -/
def daysInMonth (y m : Nat) : Nat :=
  if m = 2 then (if isLeap y then 29 else 28)
  else if m = 4 || m = 6 || m = 9 || m = 11 then 30
  else 31

/-- Validity check performed by the `datetime` constructor. -/
def validYMD : Nat × Nat × Nat → Bool
  | (y, m, d) =>
    1 ≤ y && y ≤ 9999 && 1 ≤ m && m ≤ 12 && 1 ≤ d && d ≤ daysInMonth y m

/-- Run one format parser and validate the calendar date, as
`datetime.strptime` does. -/
def strpDate (p : List Char → Option (Nat × Nat × Nat)) (s : String) :
    Option (Nat × Nat × Nat) :=
  match p s.data with
  | some ymd => if validYMD ymd then some ymd else none
  | none => none

/-- Zero-pad to two digits. -/
def pad2 (n : Nat) : String := if n < 10 then "0" ++ toString n else toString n

/-- `dt.strftime("%Y-%m-%dT00:00:00.000Z")`; glibc prints `%Y` without
zero padding. -/
def isoMidnight : Nat × Nat × Nat → String
  | (y, m, d) => toString y ++ "-" ++ pad2 m ++ "-" ++ pad2 d ++ "T00:00:00.000Z"

/-- The ordered format list of `format_date`. -/
def DATE_FORMATS : List (List Char → Option (Nat × Nat × Nat)) :=
  [pDBY2, pDBY4, pISO, pMDY, pDMY]

/-- First format of the list that parses the string wins. -/
def firstParse : List (List Char → Option (Nat × Nat × Nat)) → String →
    Option (Nat × Nat × Nat)
  | [], _ => none
  | p :: ps, s =>
    match strpDate p s with
    | some ymd => some ymd
    | none => firstParse ps s

/-- The `format_date` function of the script on a cell value. -/
def format_date : Cell → Option String
  | Cell.absent => none
  | Cell.str s =>
    if s = "" then none
    else (firstParse DATE_FORMATS (pyStrip s)).map isoMidnight

/-! ### Matching strategies (`build_attributes_from_excel`, lines 160-199) -/

/-- Do the identifier markers of strategy 2 appear in the value
(`"urn:adsk" in row_value or "dm.lineage" in row_value`)? -/
def hasMarker (v : String) : Bool :=
  strContains "urn:adsk" v || strContains "dm.lineage" v

/-- Strategy 1: scan rows of the `file_name` column; a row matches when
its stripped value is non-empty and equals the file name or the file name
without extension.  First matching row wins. -/
def scan1 (fileName fileBase : String) : List Row → Option Row
  | [] => none
  | r :: rest =>
    let v := pyStrip (pyStr (r "file_name"))
    if ¬ v = "" ∧ (v = fileName ∨ v = fileBase) then some r
    else scan1 fileName fileBase rest

/-- Strategies 2 and 3: scan rows of the `acc_file_id` column.  An empty
stripped value is skipped.  A value containing an identifier marker is
normalized with a `urn:` scheme marker when missing and compared with the
item URN; otherwise the value is treated as a literal filename. -/
def scan23 (fileName fileBase itemUrn : String) : List Row → Option (Row × String)
  | [] => none
  | r :: rest =>
    let v := pyStrip (pyStr (r "acc_file_id"))
    if v = "" then scan23 fileName fileBase itemUrn rest
    else if hasMarker v then
      if (if strStarts v "urn:" then v else "urn:" ++ v) = itemUrn then some (r, "urn")
      else scan23 fileName fileBase itemUrn rest
    else
      if v = fileName ∨ baseOf v = fileBase ∨ v = fileBase then
        some (r, "filename_in_acc_file_id")
      else scan23 fileName fileBase itemUrn rest

/-- The full matching phase of `build_attributes_from_excel`: strategy 1,
then strategies 2/3, then the single-row fallback. -/
def matchRow (df : DataFrame) (fileName itemUrn : String) : Option (Row × String) :=
  let fb := baseOf fileName
  match (if df.columns.contains "file_name" then scan1 fileName fb df.rows else none) with
  | some r => some (r, "file_name_column")
  | none =>
    match (if df.columns.contains "acc_file_id" then scan23 fileName fb itemUrn df.rows
           else none) with
    | some rs => some rs
    | none =>
      match df.rows with
      | [r] => some (r, "single_row")
      | _ => none

/-! ### Payload building (`build_attributes_from_excel`, lines 201-221) -/

/-- Is the column treated as a date column
(`"start" in col.lower() or "end" in col.lower()`)? -/
def isDateCol (col : String) : Bool :=
  strContains "start" (lowerAsc col) || strContains "end" (lowerAsc col)

/-- The payload entry contributed by one column of the matched row, or
`none` when the column is not in `ATTRIBUTE_MAPPING` or its value is
absent or empty after normalization. -/
def payloadEntry (r : Row) (col : String) : Option (Nat × String) :=
  match ATTRIBUTE_MAPPING col with
  | none => none
  | some i =>
    let value : Option String :=
      if isDateCol col then format_date (r col)
      else
        match r col with
        | Cell.absent => none
        | Cell.str s => some (pyStrip s)
    match value with
    | some v => if v = "" then none else some (i, v)
    | none => none

/-- The payload loop: one candidate entry per dataset column, in column
order, keeping only non-empty values of recognized columns. -/
def buildPayload (df : DataFrame) (r : Row) : List (Nat × String) :=
  df.columns.filterMap (payloadEntry r)

/-- `build_attributes_from_excel`: the matched payload and match method,
or `(none, "not_matched")`. -/
def build_attributes_from_excel (df : DataFrame) (fileName itemUrn : String) :
    Option (List (Nat × String)) × String :=
  match matchRow df fileName itemUrn with
  | some (r, method) => (some (buildPayload df r), method)
  | none => (none, "not_matched")

/-! ### Sync orchestrator (`main`, lines 278-321) -/

/-- One file discovered by the tree walker: the dictionary built at
lines 74-78 of the script. -/
structure FileInfo where
  id : String
  name : String
  path : String
deriving DecidableEq

/-- The per-file outcome recorded in `results`. -/
inductive Outcome where
  | success : Nat → Outcome
  | failed : String → Outcome
  | skipped : String → Outcome
deriving DecidableEq

/-- One iteration of the update loop of `main`.  `verOf` is the external
`get_version_urn_from_item` call and `upd` the external
`update_custom_attributes` call.  Python `if not payload:` is true both
for `None` and for the empty list. -/
def syncFile (df : DataFrame) (verOf : String → Option String)
    (upd : String → List (Nat × String) → Bool × String) (f : FileInfo) : Outcome :=
  match build_attributes_from_excel df f.name f.id with
  | (none, src) => Outcome.skipped src
  | (some [], src) => Outcome.skipped src
  | (some (e :: es), _) =>
    match verOf f.id with
    | none => Outcome.failed "Version lookup failed"
    | some vurn =>
      match upd vurn (e :: es) with
      | (true, _) => Outcome.success (e :: es).length
      | (false, msg) => Outcome.failed msg

/-- The whole update loop: one `(file path, outcome)` record per
discovered file, in traversal order. -/
def runSync (df : DataFrame) (verOf : String → Option String)
    (upd : String → List (Nat × String) → Bool × String) (files : List FileInfo) :
    List (String × Outcome) :=
  files.map (fun f => (f.path, syncFile df verOf upd f))

/-- Does the outcome count towards `success_count`? -/
def isSuccess : Outcome → Bool
  | Outcome.success _ => true
  | _ => false

/-- Does the outcome count towards `failed_count`? -/
def isFailed : Outcome → Bool
  | Outcome.failed _ => true
  | _ => false

/-- Does the outcome count towards `skipped_count`? -/
def isSkipped : Outcome → Bool
  | Outcome.skipped _ => true
  | _ => false

/-! ### Tree walker (`get_all_files_recursive`, lines 61-89) -/

/-- One remote entry as returned by the `list children` call: type tag,
display name, id, whether listing its own contents succeeds (meaningful
when it is recursed into as a folder), and its children. -/
inductive RNode : Type where
  | mk : String → String → String → Bool → List RNode → RNode

/-- The type tag of a node. -/
def RNode.tag : RNode → String
  | RNode.mk t _ _ _ _ => t

/-- Path extension of the script:
`f"{current_path}/{item_name}" if current_path else item_name`. -/
def pathJoin (cur nm : String) : String :=
  if cur = "" then nm else cur ++ "/" ++ nm

/-- `get_all_files_recursive` over the listed entries of one folder.  A
folder whose `ok` flag is false models a folder for which
`list_folder_contents` fails and returns `[]`. -/
def walkList : List RNode → String → List FileInfo
  | [], _ => []
  | RNode.mk tag nm idv ok ch :: rest, cur =>
    if tag = "items" then
      ⟨idv, nm, pathJoin cur nm⟩ :: walkList rest cur
    else if tag = "folders" then
      (if ok then walkList ch (pathJoin cur nm) else []) ++ walkList rest cur
    else walkList rest cur

/-! ### Specification-side definitions

These follow the wording of the specification, to be compared with the
definitions embedded from the source. -/

/-- Join display names with `/`, no leading separator at the root. -/
def joinNames : List String → String
  | [] => ""
  | [a] => a
  | a :: b :: rest => a ++ "/" ++ joinNames (b :: rest)

/-- The files of a folder tree in depth-first pre-order, as the
specification describes the walk: FILE entries are emitted with path
equal to the join of ancestor display names and the own display name,
FOLDER entries are recursed into in place, other type tags are ignored. -/
def specFiles : List RNode → List String → List FileInfo
  | [], _ => []
  | RNode.mk tag nm idv _ ch :: rest, anc =>
    if tag = "items" then
      ⟨idv, nm, joinNames (anc ++ [nm])⟩ :: specFiles rest anc
    else if tag = "folders" then
      specFiles ch (anc ++ [nm]) ++ specFiles rest anc
    else specFiles rest anc

/-- Every `list children` call in the tree succeeds. -/
def allOk : List RNode → Bool
  | [] => true
  | RNode.mk tag _ _ ok ch :: rest =>
    (if tag = "folders" then ok && allOk ch else true) && allOk rest

/-- Every folder display name in the tree is non-empty. -/
def namesOk : List RNode → Bool
  | [] => true
  | RNode.mk tag nm _ _ ch :: rest =>
    (if tag = "folders" then ¬ nm = "" && namesOk ch else true) && namesOk rest

/-- The URN interpretation of an `acc_file_id` value (strategy 2): prefix
the scheme marker when missing and compare with the item URN. -/
def urnForm (v : String) : String :=
  if strStarts v "urn:" then v else "urn:" ++ v

/-- The claimed strategy-3 criterion, following the words of claim C2:
the value equals the file name, or the extension-stripped value equals
the extension-stripped file name, in either direction (so also the
extension-stripped value against the full file name). -/
def claimedNameMatch (v fileName : String) : Prop :=
  v = fileName ∨ baseOf v = baseOf fileName ∨ v = baseOf fileName ∨ baseOf v = fileName

instance (v fileName : String) : Decidable (claimedNameMatch v fileName) := by
  unfold claimedNameMatch; infer_instance

/-! ### Concrete data for witnesses and counterexamples -/

/-- A row whose `file_name` cell is `x.pdf` and whose other cells are all
missing. -/
def rowXpdf : Row := fun col => if col = "file_name" then Cell.str "x.pdf" else Cell.absent

/-- Dataset with a `file_name` column and a recognized attribute column
whose value is missing: the matched payload is empty. -/
def dfEmptyPayload : DataFrame := ⟨["file_name", "Contractor"], [rowXpdf]⟩

/-- A row whose `acc_file_id` cell is the literal filename `a.b.c`. -/
def rowABC : Row := fun col => if col = "acc_file_id" then Cell.str "a.b.c" else Cell.absent

/-- Two-row dataset (so the single-row fallback is off) whose
`acc_file_id` values are the literal filename `a.b.c`. -/
def dfABC : DataFrame := ⟨["acc_file_id"], [rowABC, rowABC]⟩

/-- A row carrying a URN-marker `acc_file_id` value. -/
def rowUrn : Row :=
  fun col => if col = "acc_file_id" then Cell.str "urn:adsk.wipprod:dm.lineage:abc" else Cell.absent

/-- A row matching the file `y.pdf` through its `acc_file_id` value. -/
def rowYpdf : Row := fun col => if col = "acc_file_id" then Cell.str "y.pdf" else Cell.absent

/-- A row whose cells are all missing. -/
def rowAllAbsent : Row := fun _ => Cell.absent

/-- A row for file `y.pdf` with both a `file_name` value and an
`acc_file_id` URN value, plus one attribute value. -/
def rowBoth : Row := fun col =>
  if col = "file_name" then Cell.str "y.pdf"
  else if col = "acc_file_id" then Cell.str "urn:adsk.wipprod:dm.lineage:yyy"
  else if col = "Contractor" then Cell.str "ACME"
  else Cell.absent

/-- Dataset where strategy 1 and strategy 2 would both match the same
file. -/
def dfBoth : DataFrame := ⟨["file_name", "acc_file_id", "Contractor"], [rowBoth]⟩

/-- A row with one date attribute that does not parse and one plain
attribute. -/
def rowBadDate : Row := fun col =>
  if col = "file_name" then Cell.str "x.pdf"
  else if col = "Planned Start" then Cell.str "not-a-date"
  else if col = "Contractor" then Cell.str "ACME"
  else Cell.absent

/-- Dataset with an unparseable date cell in a recognized date column. -/
def dfBadDate : DataFrame := ⟨["file_name", "Planned Start", "Contractor"], [rowBadDate]⟩

/-- A small two-level folder tree: folder `A` holds `x.pdf` and folder
`B`, which holds `y.pdf`. -/
def demoTree : List RNode :=
  [RNode.mk "folders" "A" "idA" true
    [RNode.mk "items" "x.pdf" "idX" true [],
     RNode.mk "folders" "B" "idB" true
       [RNode.mk "items" "y.pdf" "idY" true []]]]

/-- A tree whose root folder has an empty display name. -/
def emptyNameTree : List RNode :=
  [RNode.mk "folders" "" "idB" true [RNode.mk "items" "f" "idF" true []]]

/-- Inverse of `ATTRIBUTE_MAPPING`: the column name carrying each known
attribute id. -/
def amKey (i : Nat) : Option String :=
  if i = 7374741 then some "Package ID"
  else if i = 7374744 then some "Package Name"
  else if i = 7374759 then some "Contractor"
  else if i = 7374769 then some "Location"
  else if i = 7374777 then some "Planned Start"
  else if i = 7374783 then some "Planned End"
  else if i = 7374787 then some "Actual Start"
  else if i = 7374795 then some "Actual End"
  else if i = 7374805 then some "% Completion"
  else none

/-! ### Theorems -/

/-- A string of length zero is the empty string. -/
theorem str_of_length_zero (s : String) (h : s.length = 0) : s = "" := by
  cases s with
  | mk d =>
    cases d with
    | nil => rfl
    | cons c cs => exact absurd h (by simp [String.length])

/-- Joining one more name on the right of a non-empty name list. -/
theorem joinNames_append_one (l : List String) (a nm : String) :
    joinNames (a :: (l ++ [nm])) = joinNames (a :: l) ++ "/" ++ nm := by
  induction l generalizing a with
  | nil => rfl
  | cons b t ih =>
    show joinNames (a :: b :: (t ++ [nm])) = joinNames (a :: b :: t) ++ "/" ++ nm
    rw [joinNames, joinNames, ih b, ← String.append_assoc, ← String.append_assoc]

/-- A join starting with a non-empty name is non-empty. -/
theorem joinNames_ne_empty (a : String) (l : List String) (ha : ¬ a = "") :
    ¬ joinNames (a :: l) = "" := by
  cases l with
  | nil => exact ha
  | cons b t =>
    intro h
    have hl := congrArg String.length h
    rw [joinNames, String.length_append, String.length_append] at hl
    have h1 : String.length "/" = 1 := rfl
    have h0 : String.length "" = 0 := rfl
    have ha' : a.length ≠ 0 := fun hz => ha (str_of_length_zero a hz)
    rw [h1, h0] at hl
    omega

/-- The path extension of the script agrees with the `/`-join of names
whenever the ancestor names are non-empty. -/
theorem pathJoin_joinNames (anc : List String) (nm : String)
    (h : ∀ x ∈ anc, ¬ x = "") :
    pathJoin (joinNames anc) nm = joinNames (anc ++ [nm]) := by
  cases anc with
  | nil => rfl
  | cons a l =>
    have hne : ¬ joinNames (a :: l) = "" :=
      joinNames_ne_empty a l (h a (List.mem_cons_self a l))
    rw [List.cons_append, pathJoin, if_neg hne, joinNames_append_one]

/-- C5 (amended): for every folder tree whose `list children` calls all
succeed and whose folder display names are non-empty, the walk returns
exactly the FILE-tagged entries of the tree, each exactly once, in
depth-first pre-order, each with path equal to the `/`-join of its
ancestor display names and its own display name, with no leading
separator at the root.  (The non-empty-name hypothesis is forced by
`c5_counterexample`: an empty accumulated path is treated like the root
and suppresses the separator.) -/
theorem walkList_eq_specFiles (items : List RNode) (anc : List String)
    (hok : allOk items = true) (hnm : namesOk items = true)
    (hanc : ∀ x ∈ anc, ¬ x = "") :
    walkList items (joinNames anc) = specFiles items anc := by
  induction items, anc using specFiles.induct with
  | case1 anc => rw [walkList, specFiles]
  | case2 nm idv ok ch rest anc ih =>
    rw [allOk] at hok
    rw [namesOk] at hnm
    simp at hok hnm
    rw [walkList, specFiles, if_pos rfl, if_pos rfl,
      pathJoin_joinNames anc nm hanc, ih hok hnm hanc]
  | case3 nm idv ok ch rest anc hne ihch ih =>
    rw [allOk] at hok
    rw [namesOk] at hnm
    simp at hok hnm
    obtain ⟨⟨hoktop, hokch⟩, hokrest⟩ := hok
    obtain ⟨⟨hnmtop, hnmch⟩, hnmrest⟩ := hnm
    have hanc' : ∀ x ∈ anc ++ [nm], ¬ x = "" := by
      intro x hx
      rcases List.mem_append.mp hx with hx | hx
      · exact hanc x hx
      · rcases List.mem_singleton.mp hx with rfl
        exact hnmtop
    rw [walkList, specFiles,
      if_neg (show ¬ ("folders" : String) = "items" by decide), if_pos rfl,
      if_neg (show ¬ ("folders" : String) = "items" by decide), if_pos rfl,
      hoktop, if_pos rfl, pathJoin_joinNames anc nm hanc,
      ihch hokch hnmch hanc', ih hokrest hnmrest hanc]
  | case4 tag nm idv ok ch rest anc h1 h2 ih =>
    rw [allOk] at hok
    rw [namesOk] at hnm
    simp only [if_neg h2, Bool.true_and] at hok hnm
    rw [walkList, specFiles, if_neg h1, if_neg h2, if_neg h1, if_neg h2]
    exact ih hok hnm hanc

/-- C6: a folder whose `list children` call fails (modelled by the `ok`
flag being false, upon which `list_folder_contents` returns `[]`)
contributes zero files to the walk, the failure is absorbed, and
traversal continues with the folder's siblings unchanged. -/
theorem c6_failed_listing_absorbed (pre post : List RNode) (nm idv cur : String)
    (ch : List RNode) :
    walkList (pre ++ RNode.mk "folders" nm idv false ch :: post) cur
      = walkList (pre ++ post) cur := by
  induction pre generalizing cur with
  | nil =>
    rw [List.nil_append, List.nil_append, walkList,
      if_neg (show ¬ ("folders" : String) = "items" by decide), if_pos rfl]
    rfl
  | cons n pre ih =>
    obtain ⟨tag, nm2, idv2, ok2, ch2⟩ := n
    rw [List.cons_append, List.cons_append, walkList, walkList]
    by_cases h1 : tag = "items"
    · rw [if_pos h1, if_pos h1, ih]
    · by_cases h2 : tag = "folders"
      · rw [if_neg h1, if_pos h2, if_neg h1, if_pos h2, ih]
      · rw [if_neg h1, if_neg h2, if_neg h1, if_neg h2, ih]

/-- C5 is false as stated: in a tree whose root folder has an empty
display name, all listings succeed, yet the walk emits path `f` for the
file where the `/`-join of ancestor display names is `/f`. -/
theorem c5_counterexample :
    allOk emptyNameTree = true ∧
    walkList emptyNameTree (joinNames []) = [⟨"idF", "f", "f"⟩] ∧
    specFiles emptyNameTree [] = [⟨"idF", "f", "/f"⟩] ∧
    walkList emptyNameTree (joinNames []) ≠ specFiles emptyNameTree [] := by
  refine ⟨by simp [emptyNameTree, allOk], ?_, ?_, ?_⟩
  · simp [emptyNameTree, walkList, pathJoin, joinNames]
  · simp [emptyNameTree, specFiles, joinNames]
  · simp [emptyNameTree, walkList, specFiles, pathJoin, joinNames]

/-- Witness for C5 at the two-level demo tree with non-empty names. -/
theorem c5_witness :
    walkList demoTree (joinNames []) = specFiles demoTree [] :=
  walkList_eq_specFiles demoTree []
    (by simp [demoTree, allOk]) (by simp [demoTree, namesOk]) (by simp)

/-- The `acc_file_id` scan only ever reports the `urn` or
`filename_in_acc_file_id` match methods. -/
theorem scan23_method (fileName fb itemUrn : String) (rows : List Row) (r : Row)
    (m : String) (h : scan23 fileName fb itemUrn rows = some (r, m)) :
    m = "urn" ∨ m = "filename_in_acc_file_id" := by
  induction rows with
  | nil => rw [scan23] at h; exact absurd h (by simp)
  | cons r0 rest ih =>
    rw [scan23] at h
    split at h
    · exact ih h
    · split at h
      · split at h
        · split at h
          · left
            injection h with h'
            injection h' with h1 h2
            exact h2.symm
          · exact ih h
        · split at h
          · left
            injection h with h'
            injection h' with h1 h2
            exact h2.symm
          · exact ih h
      · split at h
        · right
          injection h with h'
          injection h' with h1 h2
          exact h2.symm
        · exact ih h

/-- C3: strategies are tried in fixed priority order.  Any strategy-1
match (first matching row of the `file_name` column) decides the result
with method `file_name_column`, regardless of the `acc_file_id` column;
and the single-row fallback is used only when the dataset has exactly one
row and neither the `file_name` scan nor the `acc_file_id` scan matched
any row. -/
theorem c3_strategy_priority (df : DataFrame) (fileName itemUrn : String) :
    (∀ r : Row, df.columns.contains "file_name" = true →
      scan1 fileName (baseOf fileName) df.rows = some r →
      matchRow df fileName itemUrn = some (r, "file_name_column")) ∧
    (∀ r : Row, matchRow df fileName itemUrn = some (r, "single_row") →
      df.rows = [r] ∧
      (df.columns.contains "file_name" = true →
        scan1 fileName (baseOf fileName) df.rows = none) ∧
      (df.columns.contains "acc_file_id" = true →
        scan23 fileName (baseOf fileName) itemUrn df.rows = none)) := by
  constructor
  · intro r hcol hscan
    rw [matchRow, if_pos hcol, hscan]
  · intro r h
    rw [matchRow] at h
    rcases h1 : (if df.columns.contains "file_name" = true
        then scan1 fileName (baseOf fileName) df.rows else none) with _ | r1
    · rw [h1] at h
      rcases h2 : (if df.columns.contains "acc_file_id" = true
          then scan23 fileName (baseOf fileName) itemUrn df.rows else none) with _ | rs2
      · rw [h2] at h
        have hrows : df.rows = [r] := by
          rcases h3 : df.rows with _ | ⟨ra, tl⟩
          · rw [h3] at h; exact absurd h (by simp)
          · rcases h4 : tl with _ | ⟨rb, tl2⟩
            · rw [h3, h4] at h
              simp only [] at h
              injection h with h'
              injection h' with ha hb
              rw [ha]
            · rw [h3, h4] at h; exact absurd h (by simp)
        refine ⟨hrows, ?_, ?_⟩
        · intro hc; rw [if_pos hc] at h1; exact h1
        · intro hc; rw [if_pos hc] at h2; exact h2
      · rw [h2] at h
        simp only [] at h
        injection h with h'
        rw [h'] at h2
        by_cases hc : df.columns.contains "acc_file_id" = true
        · rw [if_pos hc] at h2
          rcases scan23_method fileName (baseOf fileName) itemUrn df.rows r "single_row" h2
            with hx | hx <;> exact absurd hx (by decide)
        · rw [if_neg hc] at h2; exact absurd h2 (by simp)
    · rw [h1] at h
      simp only [] at h
      injection h with h'
      injection h' with ha hb
      exact absurd hb (by decide)

/-- C4: a row of the `acc_file_id` column with a non-empty stripped
value is classified once by the marker test: when a marker is present its
fate depends only on the URN comparison (after prefixing the scheme
marker if missing), and when no marker is present only on the literal
filename comparison; it is never evaluated under both interpretations. -/
theorem c4_row_classification (fileName fb itemUrn v : String) (r : Row) (rest : List Row)
    (hveq : pyStrip (pyStr (r "acc_file_id")) = v) (hv : ¬ v = "") :
    (hasMarker v = true →
      scan23 fileName fb itemUrn (r :: rest) =
        (if urnForm v = itemUrn then some (r, "urn")
         else scan23 fileName fb itemUrn rest)) ∧
    (hasMarker v = false →
      scan23 fileName fb itemUrn (r :: rest) =
        (if v = fileName ∨ baseOf v = fb ∨ v = fb then some (r, "filename_in_acc_file_id")
         else scan23 fileName fb itemUrn rest)) := by
  constructor
  · intro hm
    rw [scan23]
    simp only [hveq, if_neg hv, hm, if_true, urnForm]
  · intro hm
    rw [scan23]
    simp only [hveq, if_neg hv, hm, Bool.false_eq_true, if_false]

/-- C2 (amended): a marker-free `acc_file_id` row value matches a file
precisely when the value equals the file name, or the extension-stripped
value equals the extension-stripped file name, or the value equals the
extension-stripped file name.  A value whose extension-stripped form
equals the full file name does not thereby match (see
`c2_counterexample`). -/
theorem c2_filename_match (fileName itemUrn v : String) (r : Row)
    (hveq : pyStrip (pyStr (r "acc_file_id")) = v) (hv : ¬ v = "")
    (hm : hasMarker v = false) :
    scan23 fileName (baseOf fileName) itemUrn [r] = some (r, "filename_in_acc_file_id") ↔
      (v = fileName ∨ baseOf v = baseOf fileName ∨ v = baseOf fileName) := by
  rw [scan23]
  simp only [hveq, if_neg hv, hm, Bool.false_eq_true, if_false]
  by_cases hc : v = fileName ∨ baseOf v = baseOf fileName ∨ v = baseOf fileName
  · rw [if_pos hc]
    simp [hc]
  · rw [if_neg hc]
    simp [hc, scan23]

/-- C2 is false as stated: the marker-free row value `a.b.c` has
extension-stripped form `a.b`, equal to the full file name, so the claim
says it matches; the code reports no match. -/
theorem c2_counterexample :
    claimedNameMatch "a.b.c" "a.b" ∧ hasMarker "a.b.c" = false ∧
    pyStrip (pyStr (rowABC "acc_file_id")) = "a.b.c" ∧
    build_attributes_from_excel dfABC "a.b" "urn:x" = (none, "not_matched") :=
  ⟨by decide, rfl, rfl, rfl⟩

/-- Witness for C2 (amended) at a row value equal to the file name. -/
theorem c2_witness :
    scan23 "y.pdf" (baseOf "y.pdf") "urn:z" [rowYpdf] =
      some (rowYpdf, "filename_in_acc_file_id") :=
  (c2_filename_match "y.pdf" "urn:z" "y.pdf" rowYpdf rfl (by decide) rfl).mpr (Or.inl rfl)

/-- Witness for C3: a dataset whose single row matches both by
`file_name` and by `acc_file_id` URN resolves via `file_name_column`. -/
theorem c3_witness :
    matchRow dfBoth "y.pdf" "urn:adsk.wipprod:dm.lineage:yyy" =
      some (rowBoth, "file_name_column") :=
  (c3_strategy_priority dfBoth "y.pdf" "urn:adsk.wipprod:dm.lineage:yyy").1 rowBoth rfl rfl

/-- Witness for C4 at a marker-carrying row value equal to the item
URN. -/
theorem c4_witness :
    scan23 "x" "x" "urn:adsk.wipprod:dm.lineage:abc" [rowUrn] = some (rowUrn, "urn") := by
  have h := (c4_row_classification "x" "x" "urn:adsk.wipprod:dm.lineage:abc"
    "urn:adsk.wipprod:dm.lineage:abc" rowUrn [] rfl (by decide)).1 rfl
  rw [h]
  rfl

/-- C1 (amended): the orchestrator records a file as skipped exactly
when the built payload is `None` (no row matched) or the empty list (a
row matched but every value was dropped); in both cases the recorded
reason is the second component returned by the builder, and the
version-resolution and update step runs only for non-empty payloads. -/
theorem c1_empty_payload_skips (df : DataFrame) (verOf : String → Option String)
    (upd : String → List (Nat × String) → Bool × String) (f : FileInfo) (src : String) :
    syncFile df verOf upd f = Outcome.skipped src ↔
      ((build_attributes_from_excel df f.name f.id).2 = src ∧
       ((build_attributes_from_excel df f.name f.id).1 = none ∨
        (build_attributes_from_excel df f.name f.id).1 = some [])) := by
  rcases hb : build_attributes_from_excel df f.name f.id with ⟨p, s⟩
  rcases p with _ | p
  · rw [syncFile, hb]
    simp
  · rcases p with _ | ⟨e, es⟩
    · rw [syncFile, hb]
      simp
    · rw [syncFile, hb]
      simp only []
      rcases hv : verOf f.id with _ | vurn
      · simp
      · rcases hu : upd vurn (e :: es) with ⟨ok, msg⟩
        rcases ok with _ | _ <;> simp [hu]

/-- C1 is false as stated: on a dataset whose matched row yields an
empty payload, the file is recorded as skipped (with the match method as
reason) even though version resolution and update would succeed, so the
update step is not attempted and `skipped` is not reserved for unmatched
files. -/
theorem c1_counterexample :
    build_attributes_from_excel dfEmptyPayload "x.pdf" "urn:item1" =
      (some [], "file_name_column") ∧
    syncFile dfEmptyPayload (fun _ => some "v1") (fun _ _ => (true, "Success"))
      ⟨"urn:item1", "x.pdf", "x.pdf"⟩ = Outcome.skipped "file_name_column" :=
  ⟨rfl, rfl⟩

/-- C10: a missing `file_name` or `acc_file_id` cell is stringified to
the literal text `nan`, so such a row matches exactly the files whose
name or extension-stripped name is `nan`; a whitespace-only cell is
treated as absent and skipped. -/
theorem c10_missing_cells :
    pyStr Cell.absent = "nan" ∧
    (∀ (fileName fb : String) (r : Row) (rest : List Row),
      r "file_name" = Cell.absent →
      scan1 fileName fb (r :: rest) =
        if fileName = "nan" ∨ fb = "nan" then some r else scan1 fileName fb rest) ∧
    (∀ (fileName fb : String) (r : Row) (rest : List Row),
      r "file_name" = Cell.str "   " →
      scan1 fileName fb (r :: rest) = scan1 fileName fb rest) ∧
    (∀ (fileName fb itemUrn : String) (r : Row) (rest : List Row),
      r "acc_file_id" = Cell.absent →
      scan23 fileName fb itemUrn (r :: rest) =
        if fileName = "nan" ∨ fb = "nan" then some (r, "filename_in_acc_file_id")
        else scan23 fileName fb itemUrn rest) := by
  refine ⟨rfl, ?_, ?_, ?_⟩
  · intro fileName fb r rest h
    rw [scan1]
    simp only [h]
    have hs : pyStrip (pyStr Cell.absent) = "nan" := rfl
    rw [hs]
    by_cases hc : fileName = "nan" ∨ fb = "nan"
    · rw [if_pos hc, if_pos]
      refine ⟨by decide, ?_⟩
      rcases hc with hc | hc
      · exact Or.inl hc.symm
      · exact Or.inr hc.symm
    · rw [if_neg hc, if_neg]
      intro hand
      rcases hand.2 with hd | hd
      · exact hc (Or.inl hd.symm)
      · exact hc (Or.inr hd.symm)
  · intro fileName fb r rest h
    rw [scan1]
    simp only [h]
    have hs : pyStrip (pyStr (Cell.str "   ")) = "" := rfl
    rw [hs]
    rw [if_neg]
    intro hand
    exact hand.1 rfl
  · intro fileName fb itemUrn r rest h
    rw [scan23]
    simp only [h]
    have hs : pyStrip (pyStr Cell.absent) = "nan" := rfl
    rw [hs]
    rw [if_neg (show ¬ ("nan" : String) = "" by decide)]
    have hm : hasMarker "nan" = false := rfl
    rw [hm]
    simp only [Bool.false_eq_true, if_false]
    have hbase : baseOf "nan" = "nan" := rfl
    rw [hbase]
    by_cases hc : fileName = "nan" ∨ fb = "nan"
    · rw [if_pos hc, if_pos]
      rcases hc with hc | hc
      · exact Or.inl hc.symm
      · exact Or.inr (Or.inl hc.symm)
    · rw [if_neg hc, if_neg]
      intro hd
      rcases hd with hd | hd | hd
      · exact hc (Or.inl hd.symm)
      · exact hc (Or.inr hd.symm)
      · exact hc (Or.inr hd.symm)

/-- Witness for C10: a row of missing cells matches the file named
`nan`. -/
theorem c10_witness : scan1 "nan" "nan" [rowAllAbsent] = some rowAllAbsent := by
  have h := c10_missing_cells.2.1 "nan" "nan" rowAllAbsent [] rfl
  rw [h, if_pos (Or.inl rfl)]

/-- Every binding of `ATTRIBUTE_MAPPING` is inverted by `amKey`. -/
theorem AM_inverse (a : String) (i : Nat) (h : ATTRIBUTE_MAPPING a = some i) :
    amKey i = some a := by
  unfold ATTRIBUTE_MAPPING at h
  split_ifs at h <;> injection h with h2 <;> subst h2 <;> subst_vars <;> rfl

/-- `ATTRIBUTE_MAPPING` is injective on the keys it recognizes. -/
theorem ATTRIBUTE_MAPPING_inj (a b : String) (i : Nat)
    (ha : ATTRIBUTE_MAPPING a = some i) (hb : ATTRIBUTE_MAPPING b = some i) : a = b := by
  have h1 := AM_inverse a i ha
  have h2 := AM_inverse b i hb
  rw [h1] at h2
  exact Option.some.inj h2

/-- A produced payload entry carries a recognized attribute id and a
non-empty value. -/
theorem payloadEntry_sound (r : Row) (c : String) (i : Nat) (v : String)
    (h : payloadEntry r c = some (i, v)) :
    ATTRIBUTE_MAPPING c = some i ∧ ¬ v = "" := by
  rw [payloadEntry] at h
  rcases hAM : ATTRIBUTE_MAPPING c with _ | j
  · rw [hAM] at h; exact absurd h (by simp)
  · rw [hAM] at h
    simp only [] at h
    rcases hval : (if isDateCol c = true then format_date (r c)
        else match r c with
          | Cell.absent => none
          | Cell.str s => some (pyStrip s)) with _ | w
    · rw [hval] at h; exact absurd h (by simp)
    · rw [hval] at h
      simp only [] at h
      by_cases hw : w = ""
      · rw [if_pos hw] at h; exact absurd h (by simp)
      · rw [if_neg hw] at h
        injection h with h'
        injection h' with h1 h2
        subst h1; subst h2
        exact ⟨rfl, hw⟩

/-- The ordered format list fails exactly when every format fails. -/
theorem firstParse_eq_none (ps : List (List Char → Option (Nat × Nat × Nat))) (s : String) :
    firstParse ps s = none ↔ ∀ p ∈ ps, strpDate p s = none := by
  induction ps with
  | nil => simp [firstParse]
  | cons p ps ih =>
    rw [firstParse]
    rcases hp : strpDate p s with _ | ymd
    · simp [hp, ih]
    · simp [hp]

/-- C7: the four sample date strings all normalize to the same
midnight-UTC timestamp for 2024-01-15; `01/02/2024` shows that the
month/day format is preferred to day/month; a string is unparseable
exactly when all five formats fail, in which case a recognized date
column contributes no payload entry (attribute omission, not an
error). -/
theorem c7_date_normalization :
    format_date (Cell.str "15-Jan-24") = some "2024-01-15T00:00:00.000Z" ∧
    format_date (Cell.str "15-Jan-2024") = some "2024-01-15T00:00:00.000Z" ∧
    format_date (Cell.str "2024-01-15") = some "2024-01-15T00:00:00.000Z" ∧
    format_date (Cell.str "01/15/2024") = some "2024-01-15T00:00:00.000Z" ∧
    format_date (Cell.str "01/02/2024") = some "2024-01-02T00:00:00.000Z" ∧
    (∀ s : String, format_date (Cell.str s) = none ↔
      (s = "" ∨ ∀ p ∈ DATE_FORMATS, strpDate p (pyStrip s) = none)) ∧
    (∀ (df : DataFrame) (r : Row) (col : String) (i : Nat) (v : String),
      ATTRIBUTE_MAPPING col = some i → isDateCol col = true →
      format_date (r col) = none → (i, v) ∉ buildPayload df r) := by
  refine ⟨rfl, rfl, rfl, rfl, rfl, ?_, ?_⟩
  · intro s
    rw [format_date]
    by_cases hs : s = ""
    · simp [hs]
    · rw [if_neg hs]
      simp only [hs, false_or, Option.map_eq_none']
      exact firstParse_eq_none DATE_FORMATS (pyStrip s)
  · intro df r col i v hAM hdate hfmt hmem
    rw [buildPayload] at hmem
    rcases List.mem_filterMap.mp hmem with ⟨c, hc, he⟩
    have hsound := payloadEntry_sound r c i v he
    have hceq : c = col := ATTRIBUTE_MAPPING_inj c col i hsound.1 hAM
    subst hceq
    rw [payloadEntry, hsound.1] at he
    simp only [] at he
    rw [if_pos hdate, hfmt] at he
    exact absurd he (by simp)

/-- Witness for C7: the unparseable `Planned Start` cell is omitted
from the payload. -/
theorem c7_witness : (7374777, "z") ∉ buildPayload dfBadDate rowBadDate :=
  c7_date_normalization.2.2.2.2.2.2 dfBadDate rowBadDate "Planned Start" 7374777 "z"
    rfl rfl rfl

/-- `filterMap` along a pointwise-smaller partial function yields a
sublist. -/
theorem filterMap_sub_of_imp {α β : Type} (f g : α → Option β) (l : List α)
    (h : ∀ a b, f a = some b → g a = some b) :
    List.Sublist (l.filterMap f) (l.filterMap g) := by
  induction l with
  | nil => simp
  | cons a l ih =>
    rw [List.filterMap_cons, List.filterMap_cons]
    rcases hfa : f a with _ | b
    · rcases hga : g a with _ | c
      · exact ih
      · exact ih.cons c
    · rw [h a b hfa]
      exact ih.cons₂ b

/-- The attribute ids of a payload, as a `filterMap` over the columns. -/
theorem buildPayload_fst (df : DataFrame) (r : Row) :
    (buildPayload df r).map Prod.fst =
      df.columns.filterMap (fun c => (payloadEntry r c).map Prod.fst) := by
  rw [buildPayload, List.map_filterMap]

/-- C8: for datasets with distinct column names (as `pd.read_excel`
guarantees), a built payload has pairwise distinct attribute ids, only
non-empty values of ids drawn from `ATTRIBUTE_MAPPING`, and its ids
follow the dataset's column order. -/
theorem c8_payload_wellformed (df : DataFrame) (r : Row) (hnd : df.columns.Nodup) :
    ((buildPayload df r).map Prod.fst).Nodup ∧
    (∀ p ∈ buildPayload df r, ¬ p.2 = "" ∧ ∃ col, ATTRIBUTE_MAPPING col = some p.1) ∧
    List.Sublist ((buildPayload df r).map Prod.fst)
      (df.columns.filterMap ATTRIBUTE_MAPPING) := by
  have hfst : ∀ (c : String) (i : Nat),
      (payloadEntry r c).map Prod.fst = some i → ATTRIBUTE_MAPPING c = some i := by
    intro c i h
    rcases hpe : payloadEntry r c with _ | p
    · rw [hpe] at h; exact absurd h (by simp)
    · rw [hpe] at h
      simp only [Option.map_some'] at h
      injection h with h'
      rcases p with ⟨j, w⟩
      have h2 : j = i := h'
      have := payloadEntry_sound r c j w hpe
      rw [← h2]
      exact this.1
  refine ⟨?_, ?_, ?_⟩
  · rw [buildPayload_fst]
    refine List.Nodup.filterMap ?_ hnd
    intro a a' b hb hb'
    exact ATTRIBUTE_MAPPING_inj a a' b (hfst a b hb) (hfst a' b hb')
  · intro p hp
    rw [buildPayload] at hp
    rcases List.mem_filterMap.mp hp with ⟨c, hc, he⟩
    rcases p with ⟨i, v⟩
    have := payloadEntry_sound r c i v he
    exact ⟨this.2, c, this.1⟩
  · rw [buildPayload_fst]
    exact filterMap_sub_of_imp _ _ df.columns hfst

/-- Witness for C8 at the demo dataset. -/
theorem c8_witness :
    ((buildPayload dfBoth rowBoth).map Prod.fst).Nodup ∧
    (∀ p ∈ buildPayload dfBoth rowBoth, ¬ p.2 = "" ∧
      ∃ col, ATTRIBUTE_MAPPING col = some p.1) ∧
    List.Sublist ((buildPayload dfBoth rowBoth).map Prod.fst)
      (dfBoth.columns.filterMap ATTRIBUTE_MAPPING) :=
  c8_payload_wellformed dfBoth rowBoth (by decide)

/-- Every outcome is counted by exactly one of the three tallies. -/
theorem outcome_partition (l : List (String × Outcome)) :
    l.countP (fun x => isSuccess x.2) + l.countP (fun x => isFailed x.2)
      + l.countP (fun x => isSkipped x.2) = l.length := by
  induction l with
  | nil => rfl
  | cons a l ih =>
    rw [List.countP_cons, List.countP_cons, List.countP_cons, List.length_cons]
    rcases a with ⟨p, o⟩
    rcases o with n | m | m <;>
      simp [isSuccess, isFailed, isSkipped] at ih ⊢ <;> omega

/-- C9: the update loop records exactly one outcome per discovered
file, in traversal order (the reported paths are the files' paths in
order), and the success, failed and skipped tallies always sum to the
number of files found; the loop is total, so no per-file error aborts
the run. -/
theorem c9_outcome_report (df : DataFrame) (verOf : String → Option String)
    (upd : String → List (Nat × String) → Bool × String) (files : List FileInfo) :
    (runSync df verOf upd files).map Prod.fst = files.map FileInfo.path ∧
    (runSync df verOf upd files).countP (fun x => isSuccess x.2)
      + (runSync df verOf upd files).countP (fun x => isFailed x.2)
      + (runSync df verOf upd files).countP (fun x => isSkipped x.2)
      = files.length := by
  constructor
  · rw [runSync, List.map_map]
    rfl
  · rw [outcome_partition, runSync, List.length_map]
